import Mathlib

/-!
Verification of the KubeStock `ms-product` service core: the rule-based
price calculator (`src/services/pricing.service.js`, given as
`src/unnamed/part_006`), the product lifecycle state machine
(`src/services/productLifecycle.service.js`, given as `src/unnamed/part_005`)
and the schema defaults of `src/migrations/1733200000000_initial-schema.js`.

JavaScript numbers are embedded as exact rationals (`ℚ`); `Number.toFixed(2)`
followed by `parseFloat` is embedded as rounding half-up to two decimals.
The Postgres store is embedded as explicit lists of rows, and each SQL
statement of the source as the corresponding pure list operation.
-/

/-- Embedding of `x.toFixed(2)` + `parseFloat`: round half-up to 2 decimals. -/
def round2 (x : ℚ) : ℚ := (⌊x * 100 + 1 / 2⌋ : ℚ) / 100

/-- The six lifecycle states (`ProductLifecycleService.STATES`). -/
inductive LifecycleState where
  | draft
  | pending_approval
  | approved
  | active
  | discontinued
  | archived
deriving DecidableEq

/-- The string value each state has in the source (`STATES` map). -/
def stateName : LifecycleState → String
  | .draft => "draft"
  | .pending_approval => "pending_approval"
  | .approved => "approved"
  | .active => "active"
  | .discontinued => "discontinued"
  | .archived => "archived"

/-- Allowed target states per current state (`ProductLifecycleService.TRANSITIONS`). -/
def TRANSITIONS : LifecycleState → List LifecycleState
  | .draft => [.pending_approval, .archived]
  | .pending_approval => [.approved, .draft]
  | .approved => [.active]
  | .active => [.discontinued]
  | .discontinued => [.active, .archived]
  | .archived => []

/-- `validateTransition(currentState, newState)` from part_005. -/
def validateTransition (currentState newState : LifecycleState) : Bool :=
  (TRANSITIONS currentState).contains newState

/-- The `rule_type` column values used by the pricing queries. -/
inductive RuleType where
  | bulk
  | promotion
  | category
deriving DecidableEq

/-- A row of the `products` table (columns used by the two services).
`unit_price` is `decimal(10,2) notNull`; `category_id` is nullable. -/
structure Product where
  id : Nat
  sku : String
  name : String
  description : Option String
  category_id : Option Nat
  size : Option String
  color : Option String
  unit_price : ℚ
  attributes : Option String
  is_active : Bool
  lifecycle_state : LifecycleState
  created_by : Option String
  approved_by : Option String
  approved_at : Option Int
deriving DecidableEq

/-- A row of the `pricing_rules` table. Dates are embedded as `Int` day
numbers; a `none` bound is SQL `NULL`. -/
structure PricingRule where
  id : Nat
  rule_name : String
  rule_type : RuleType
  product_id : Option Nat
  category_id : Option Nat
  min_quantity : Nat
  discount_percentage : ℚ
  promo_name : Option String
  valid_from : Option Int
  valid_until : Option Int
  is_active : Bool
deriving DecidableEq

/-- A row of the `product_lifecycle_history` table. -/
structure LifecycleHistoryEntry where
  product_id : Nat
  old_state : Option LifecycleState
  new_state : LifecycleState
  changed_by : Option String
  notes : Option String
deriving DecidableEq

/-- A row of the `categories` table (columns used by `generateSKU`). -/
structure Category where
  id : Nat
  code : Option String
deriving DecidableEq

/-- The database state the two services read and write, plus the clock
(`CURRENT_DATE` as `today`, `CURRENT_TIMESTAMP` as `now`, `getFullYear()`
as `year`). -/
structure DB where
  products : List Product
  categories : List Category
  rules : List PricingRule
  history : List LifecycleHistoryEntry
  today : Int
  now : Int
  year : Nat
deriving DecidableEq

/-- One entry of `appliedDiscounts` in the pricing breakdown. -/
structure AppliedDiscount where
  dtype : String
  rule : Option String
  percentage : ℚ
  amount : ℚ
deriving DecidableEq

/-- The pricing breakdown returned by `calculatePrice` (the `calculatedAt`
timestamp is omitted). -/
structure PriceBreakdown where
  productId : Nat
  productName : String
  sku : String
  quantity : Nat
  basePrice : ℚ
  pricePerUnit : ℚ
  subtotal : ℚ
  totalDiscount : ℚ
  finalTotal : ℚ
  appliedDiscounts : List AppliedDiscount
deriving DecidableEq

/-- `SELECT ... FROM products WHERE id = $1 AND is_active = true` of
`getProductWithPricing`. -/
def getProductWithPricing (products : List Product) (productId : Nat) : Option Product :=
  products.find? fun p => p.id == productId && p.is_active

/-- `ORDER BY f DESC LIMIT 1`: pick a row maximising `f` (leftmost on ties,
which is one of the orders the unconstrained SQL tie-break permits). -/
def maxBy {β : Type} [LinearOrder β] (f : PricingRule → β) : List PricingRule → Option PricingRule
  | [] => none
  | r :: rs =>
    match maxBy f rs with
    | none => some r
    | some b => if f b ≤ f r then some r else some b

/-- The WHERE clause of `getBulkDiscount`. -/
def bulkMatches (today : Int) (productId : Nat) (quantity : Nat) (r : PricingRule) : Bool :=
  r.product_id == some productId && r.rule_type == RuleType.bulk &&
    r.min_quantity ≤ quantity && r.is_active &&
    r.valid_from.all (fun d => d ≤ today) && r.valid_until.all (fun d => today ≤ d)

/-- `getBulkDiscount(productId, quantity)`: highest `min_quantity` active
bulk rule for the product whose validity window (NULL = unbounded) is open. -/
def getBulkDiscount (rules : List PricingRule) (today : Int) (productId quantity : Nat) :
    Option PricingRule :=
  maxBy (fun r => r.min_quantity) (rules.filter (bulkMatches today productId quantity))

/-- The WHERE clause of `getActiveTimePromotion`; a NULL date bound makes the
SQL comparison non-true, so both bounds must be present. -/
def promotionMatches (today : Int) (productId : Nat) (r : PricingRule) : Bool :=
  (r.product_id == some productId || r.product_id == none) &&
    r.rule_type == RuleType.promotion && r.is_active &&
    r.valid_from.any (fun d => d ≤ today) && r.valid_until.any (fun d => today ≤ d)

/-- `getActiveTimePromotion(productId)`: highest-percentage active promotion,
product-scoped or global, with a currently open bounded window. -/
def getActiveTimePromotion (rules : List PricingRule) (today : Int) (productId : Nat) :
    Option PricingRule :=
  maxBy (fun r => r.discount_percentage) (rules.filter (promotionMatches today productId))

/-- The WHERE clause of `getCategoryDiscount` for a non-NULL category id. -/
def categoryMatches (today : Int) (categoryId : Nat) (r : PricingRule) : Bool :=
  r.category_id == some categoryId && r.rule_type == RuleType.category && r.is_active &&
    r.valid_from.all (fun d => d ≤ today) && r.valid_until.all (fun d => today ≤ d)

/-- `getCategoryDiscount(categoryId)`; when the product has no category the
SQL `category_id = NULL` comparison matches no row. -/
def getCategoryDiscount (rules : List PricingRule) (today : Int) (categoryId : Option Nat) :
    Option PricingRule :=
  match categoryId with
  | none => none
  | some cid => maxBy (fun r => r.discount_percentage) (rules.filter (categoryMatches today cid))

/-- `getCustomerTier(customerId)`: the mock `["VIP","Gold","Silver",null][customerId % 4]`. -/
def getCustomerTier (customerId : Nat) : Option String :=
  match customerId % 4 with
  | 0 => some "VIP"
  | 1 => some "Gold"
  | 2 => some "Silver"
  | _ => none

/-- The tier record `getCustomerTierDiscount` builds. -/
structure TierDiscount where
  tier_name : String
  discount_percentage : ℚ
deriving DecidableEq

/-- `getCustomerTierDiscount(customerId, productId)`: VIP 10%, Gold 5%, Silver 2%. -/
def getCustomerTierDiscount (customerId : Nat) : Option TierDiscount :=
  match getCustomerTier customerId with
  | some "VIP" => some ⟨"VIP", 10⟩
  | some "Gold" => some ⟨"Gold", 5⟩
  | some "Silver" => some ⟨"Silver", 2⟩
  | _ => none

/-- Step 1 of `calculatePrice`: the bulk discount is computed on `basePrice`
and subtracted from the running price; the recorded amount is scaled by
quantity. -/
def bulkStep (basePrice : ℚ) (quantity : Nat) (o : Option PricingRule)
    (st : ℚ × List AppliedDiscount) : ℚ × List AppliedDiscount :=
  match o with
  | none => st
  | some b =>
    let discountAmount := basePrice * b.discount_percentage / 100
    (st.1 - discountAmount,
      st.2 ++ [⟨"bulk", some b.rule_name, b.discount_percentage, discountAmount * quantity⟩])

/-- Step 2 of `calculatePrice`: the promotion discount is computed on the
current running price. -/
def promoStep (quantity : Nat) (o : Option PricingRule)
    (st : ℚ × List AppliedDiscount) : ℚ × List AppliedDiscount :=
  match o with
  | none => st
  | some t =>
    let promoAmount := st.1 * t.discount_percentage / 100
    (st.1 - promoAmount,
      st.2 ++ [⟨"promotion", t.promo_name, t.discount_percentage, promoAmount * quantity⟩])

/-- Step 3 of `calculatePrice`: the category discount is computed on the
current running price. -/
def categoryStep (quantity : Nat) (o : Option PricingRule)
    (st : ℚ × List AppliedDiscount) : ℚ × List AppliedDiscount :=
  match o with
  | none => st
  | some c =>
    let catAmount := st.1 * c.discount_percentage / 100
    (st.1 - catAmount,
      st.2 ++ [⟨"category", some c.rule_name, c.discount_percentage, catAmount * quantity⟩])

/-- Step 4 of `calculatePrice`: the customer-tier discount is computed on the
current running price. -/
def tierStep (quantity : Nat) (o : Option TierDiscount)
    (st : ℚ × List AppliedDiscount) : ℚ × List AppliedDiscount :=
  match o with
  | none => st
  | some t =>
    let tierAmount := st.1 * t.discount_percentage / 100
    (st.1 - tierAmount,
      st.2 ++ [⟨"customer_tier", some (t.tier_name ++ " Tier"), t.discount_percentage,
        tierAmount * quantity⟩])

/-- `PricingService.calculatePrice(productId, quantity, customerId)`.
`customerId = some 0` is skipped because `if (customerId)` is falsy on `0`. -/
def calculatePrice (db : DB) (productId : Nat) (quantity : Nat) (customerId : Option Nat) :
    Except String PriceBreakdown :=
  match getProductWithPricing db.products productId with
  | none => .error "Product not found"
  | some product =>
    let basePrice := product.unit_price
    let st1 := bulkStep basePrice quantity
      (getBulkDiscount db.rules db.today productId quantity) (basePrice, [])
    let st2 := promoStep quantity (getActiveTimePromotion db.rules db.today productId) st1
    let st3 := categoryStep quantity (getCategoryDiscount db.rules db.today product.category_id) st2
    let st4 :=
      match customerId with
      | none => st3
      | some cid => if cid = 0 then st3 else tierStep quantity (getCustomerTierDiscount cid) st3
    let finalPrice := st4.1
    let appliedDiscounts := st4.2
    let subtotal := basePrice * quantity
    let totalDiscount := appliedDiscounts.foldl (fun s d => s + d.amount) 0
    .ok
      { productId := productId
        productName := product.name
        sku := product.sku
        quantity := quantity
        basePrice := round2 basePrice
        pricePerUnit := round2 finalPrice
        subtotal := round2 subtotal
        totalDiscount := round2 totalDiscount
        finalTotal := round2 (finalPrice * quantity)
        appliedDiscounts := appliedDiscounts }

/-- One line of a bundle request. -/
structure BundleItem where
  productId : Nat
  quantity : Nat
  customerId : Option Nat
deriving DecidableEq

/-- The result of `calculateBundlePrice` (the timestamp is omitted). -/
structure BundleBreakdown where
  items : List PriceBreakdown
  subtotal : ℚ
  itemDiscounts : ℚ
  bundleDiscount : ℚ
  bundleDiscountPercentage : ℚ
  finalTotal : ℚ
deriving DecidableEq

/-- The loop of `calculateBundlePrice`: accumulate each item's breakdown,
subtotal and discount; the first thrown error aborts the whole loop. -/
def bundleLoop (db : DB) : List BundleItem → Except String (List PriceBreakdown × ℚ × ℚ)
  | [] => .ok ([], 0, 0)
  | item :: rest =>
    match calculatePrice db item.productId item.quantity item.customerId with
    | .error e => .error e
    | .ok pricing =>
      match bundleLoop db rest with
      | .error e => .error e
      | .ok (details, totalPrice, totalDiscount) =>
        .ok (pricing :: details, pricing.subtotal + totalPrice,
          pricing.totalDiscount + totalDiscount)

/-- `PricingService.calculateBundlePrice(bundleItems)`: price each item, then
apply one flat 5% bundle discount on `totalPrice - totalDiscount`. -/
def calculateBundlePrice (db : DB) (bundleItems : List BundleItem) :
    Except String BundleBreakdown :=
  match bundleLoop db bundleItems with
  | .error e => .error e
  | .ok (itemDetails, totalPrice, totalDiscount) =>
    let bundleDiscountPercentage : ℚ := 5
    let bundleDiscount := (totalPrice - totalDiscount) * bundleDiscountPercentage / 100
    let finalTotal := totalPrice - totalDiscount - bundleDiscount
    .ok
      { items := itemDetails
        subtotal := round2 totalPrice
        itemDiscounts := round2 totalDiscount
        bundleDiscount := round2 bundleDiscount
        bundleDiscountPercentage := bundleDiscountPercentage
        finalTotal := round2 finalTotal }

/-- The typed failures the lifecycle service throws (`new Error(...)` with
the corresponding message templates). -/
inductive LifecycleError where
  | productNotFound
  | invalidTransition (current attempted : LifecycleState)
  | validationFailed (errors : List String)
  | skuExists (sku : String)
deriving DecidableEq

/-- The `error.message` string each thrown error carries in the source. -/
def errorMessage : LifecycleError → String
  | .productNotFound => "Product not found"
  | .invalidTransition c a =>
    "Invalid state transition: " ++ stateName c ++ " → " ++ stateName a
  | .validationFailed errs => "Product validation failed: " ++ String.intercalate ", " errs
  | .skuExists s => "SKU " ++ s ++ " already exists"

/-- The `errors` list collected by `validateProductForActivation(product)`:
all violated activation rules, in source order. -/
def activationErrors (product : Product) : List String :=
  (if product.unit_price ≤ 0 then ["Valid unit price required"] else []) ++
    (if product.sku = "" then ["SKU required"] else []) ++
      (if product.category_id = none then ["Category required"] else [])

/-- `validateProductForActivation(product)`: throws when any rule is violated. -/
def validateProductForActivation (product : Product) : Except LifecycleError Unit :=
  let errors := activationErrors product
  if errors = [] then .ok () else .error (.validationFailed errors)

/-- `archiveRelatedData(productId)`: `UPDATE pricing_rules SET is_active =
false WHERE product_id = $1`. -/
def archiveRelatedData (rules : List PricingRule) (productId : Nat) : List PricingRule :=
  rules.map fun r =>
    if r.product_id == some productId then { r with is_active := false } else r

/-- `handleStateTransition(product, newState)`: the per-target side effects
run before the row update (activation validation, archival cascade). -/
def handleStateTransition (db : DB) (product : Product) (newState : LifecycleState) :
    Except LifecycleError DB :=
  match newState with
  | .archived => .ok { db with rules := archiveRelatedData db.rules product.id }
  | .active =>
    match validateProductForActivation product with
    | .error e => .error e
    | .ok _ => .ok db
  | _ => .ok db

/-- The row produced by the dynamic `UPDATE products ...` of
`transitionState`: `is_active` is forced only for `active` /
`discontinued` / `archived`; `approved_by` / `approved_at` are stamped only
for `approved`. -/
def applyStateUpdate (product : Product) (newState : LifecycleState) (userId : String)
    (now : Int) : Product :=
  { product with
    lifecycle_state := newState
    is_active :=
      if newState = .active then true
      else if newState = .discontinued ∨ newState = .archived then false
      else product.is_active
    approved_by := if newState = .approved then some userId else product.approved_by
    approved_at := if newState = .approved then some now else product.approved_at }

/-- `logLifecycleEvent`: append one history row. -/
def logLifecycleEvent (history : List LifecycleHistoryEntry) (productId : Nat)
    (oldState : Option LifecycleState) (newState : LifecycleState) (changedBy : String)
    (notes : Option String) : List LifecycleHistoryEntry :=
  history ++ [⟨productId, oldState, newState, some changedBy, notes⟩]

/-- `transitionState(productId, newState, userId, notes)` inside its
transaction: on success the new database state and the updated row. -/
def transitionState (db : DB) (productId : Nat) (newState : LifecycleState) (userId : String)
    (notes : Option String) : Except LifecycleError (DB × Product) :=
  match db.products.find? (fun p => p.id == productId) with
  | none => .error .productNotFound
  | some product =>
    let currentState := product.lifecycle_state
    if validateTransition currentState newState then
      match handleStateTransition db product newState with
      | .error e => .error e
      | .ok db1 =>
        let updatedProduct := applyStateUpdate product newState userId db.now
        let db2 := { db1 with
          products := db1.products.map fun (p : Product) =>
            if p.id == productId then updatedProduct else p }
        let db3 := { db2 with
          history := logLifecycleEvent db2.history productId (some currentState) newState
            userId notes }
        .ok (db3, updatedProduct)
    else .error (.invalidTransition currentState newState)

/-- `transitionState` as observed by the caller: a thrown error triggers
`ROLLBACK`, so the database is unchanged on failure. -/
def runTransitionState (db : DB) (productId : Nat) (newState : LifecycleState)
    (userId : String) (notes : Option String) : DB × Except LifecycleError Product :=
  match transitionState db productId newState userId notes with
  | .ok (db', p) => (db', .ok p)
  | .error e => (db, .error e)

/-- The request body `createProduct` receives. -/
structure ProductData where
  sku : Option String
  name : String
  description : Option String
  category_id : Option Nat
  size : Option String
  color : Option String
  unit_price : ℚ
  attributes : Option String
deriving DecidableEq

/-- `String(sequence).padStart(4, "0")`. -/
def padStart4 (s : String) : String :=
  if 4 ≤ s.length then s else String.mk (List.replicate (4 - s.length) '0') ++ s

/-- The integer captured by `SUBSTRING(sku FROM 'code-year-(digits)')` when
`sku LIKE 'code-year-%'`, else `none`. -/
def skuSequence (pfx : String) (sku : String) : Option Nat :=
  if pfx.isPrefixOf sku then
    let rest := sku.drop pfx.length
    if rest ≠ "" ∧ rest.all Char.isDigit then some rest.toNat! else none
  else none

/-- `generateSKU(productData)`: `{CategoryCode}-{Year}-{sequence padded to 4}`
with sequence `max existing + 1`; a missing or NULL category code falls back
to `"GEN"`. -/
def generateSKU (db : DB) (productData : ProductData) : String :=
  let categoryCode :=
    match productData.category_id.bind
      (fun cid => db.categories.find? (fun c => c.id == cid)) with
    | some c => c.code.getD "GEN"
    | none => "GEN"
  let pfx := categoryCode ++ "-" ++ toString db.year ++ "-"
  let nextSeq :=
    (db.products.foldl (fun m p => max m ((skuSequence pfx p.sku).getD 0)) 0) + 1
  pfx ++ padStart4 (toString nextSeq)

/-- `checkSKUExists(sku)`. -/
def checkSKUExists (products : List Product) (sku : String) : Bool :=
  products.any fun p => p.sku == sku

/-- The serial `id` column: one more than the largest existing id. -/
def nextProductId (products : List Product) : Nat :=
  (products.foldl (fun m p => max m p.id) 0) + 1

/-- `createProduct(productData, createdBy)`: insert in DRAFT state and log a
history entry. The insert does not mention `is_active`, so the row gets the
column default `true` from the migration
(`is_active: { type: 'boolean', default: true }`). -/
def createProduct (db : DB) (productData : ProductData) (createdBy : String) :
    Except LifecycleError (DB × Product) :=
  let sku :=
    match productData.sku with
    | some s => s
    | none => generateSKU db productData
  if checkSKUExists db.products sku then .error (.skuExists sku)
  else
    let product : Product :=
      { id := nextProductId db.products
        sku := sku
        name := productData.name
        description := productData.description
        category_id := productData.category_id
        size := productData.size
        color := productData.color
        unit_price := productData.unit_price
        attributes := productData.attributes
        is_active := true
        lifecycle_state := .draft
        created_by := some createdBy
        approved_by := none
        approved_at := none }
    let db1 := { db with products := db.products ++ [product] }
    let db2 := { db1 with
      history := logLifecycleEvent db1.history product.id none .draft createdBy
        (some "Product created") }
    .ok (db2, product)

/-- One entry of the `results` list `bulkApprove` returns; a failed member
records `error.message`. -/
structure BulkResult where
  productId : Nat
  success : Bool
  product : Option Product
  error : Option String
deriving DecidableEq

/-- The result entry `bulkApprove` pushes for one attempted id. -/
def mkBulkResult (productId : Nat) : Except LifecycleError (DB × Product) → BulkResult
  | .ok (_, p) => ⟨productId, true, some p, none⟩
  | .error e => ⟨productId, false, none, some (errorMessage e)⟩

/-- `bulkApprove(productIds, userId, notes)`: attempt the `approved`
transition per id inside the loop's own try/catch; each success commits (its
own transaction), each failure is recorded and the loop continues. -/
def bulkApprove (db : DB) (productIds : List Nat) (userId : String) (notes : Option String) :
    DB × List BulkResult :=
  match productIds with
  | [] => (db, [])
  | productId :: rest =>
    match transitionState db productId .approved userId notes with
    | .ok (db', p) =>
      let r := bulkApprove db' rest userId notes
      (r.1, mkBulkResult productId (.ok (db', p)) :: r.2)
    | .error e =>
      let r := bulkApprove db rest userId notes
      (r.1, mkBulkResult productId (.error e) :: r.2)

/-- `getLifecycleHistory(productId, limit)`: the product's history rows,
most recent first, limited. -/
def getLifecycleHistory (db : DB) (productId : Nat) (limit : Nat) :
    List LifecycleHistoryEntry :=
  ((db.history.filter fun h => h.product_id == productId).reverse).take limit

/-- Discount percentage of an optional rule; `0` when no rule matched (no
discount step runs). -/
def rulePct (o : Option PricingRule) : ℚ :=
  match o with
  | none => 0
  | some r => r.discount_percentage

/-- Discount percentage of an optional tier record. -/
def tierPctOf (o : Option TierDiscount) : ℚ :=
  match o with
  | none => 0
  | some t => t.discount_percentage

/-- Effective customer-tier percentage applied by `calculatePrice`:
`0` when no customer id is given, when it is the falsy `0`, or when the tier
lookup yields no tier. -/
def custPct (customerId : Option Nat) : ℚ :=
  match customerId with
  | none => 0
  | some cid => if cid = 0 then 0 else tierPctOf (getCustomerTierDiscount cid)

/-- Closed form of the running per-unit price after the four discount steps:
each matched step multiplies the running price by `1 - pct / 100`. -/
def effectivePrice (db : DB) (productId quantity : Nat) (customerId : Option Nat)
    (product : Product) : ℚ :=
  product.unit_price
    * (1 - rulePct (getBulkDiscount db.rules db.today productId quantity) / 100)
    * (1 - rulePct (getActiveTimePromotion db.rules db.today productId) / 100)
    * (1 - rulePct (getCategoryDiscount db.rules db.today product.category_id) / 100)
    * (1 - custPct customerId / 100)

/-- The discount entries the bulk step appends, with the discount computed on
the base price. -/
def bulkEntries (basePrice : ℚ) (quantity : Nat) (o : Option PricingRule) :
    List AppliedDiscount :=
  match o with
  | none => []
  | some b =>
    [⟨"bulk", some b.rule_name, b.discount_percentage,
      basePrice * b.discount_percentage / 100 * quantity⟩]

/-- The discount entries the promotion step appends, with the discount
computed on the running price `price`. -/
def promoEntries (price : ℚ) (quantity : Nat) (o : Option PricingRule) :
    List AppliedDiscount :=
  match o with
  | none => []
  | some t =>
    [⟨"promotion", t.promo_name, t.discount_percentage,
      price * t.discount_percentage / 100 * quantity⟩]

/-- The discount entries the category step appends, with the discount
computed on the running price `price`. -/
def categoryEntries (price : ℚ) (quantity : Nat) (o : Option PricingRule) :
    List AppliedDiscount :=
  match o with
  | none => []
  | some c =>
    [⟨"category", some c.rule_name, c.discount_percentage,
      price * c.discount_percentage / 100 * quantity⟩]

/-- The discount entries the customer-tier step appends, with the discount
computed on the running price `price`. -/
def custEntries (price : ℚ) (quantity : Nat) (customerId : Option Nat) :
    List AppliedDiscount :=
  match customerId with
  | none => []
  | some cid =>
    if cid = 0 then []
    else
      match getCustomerTierDiscount cid with
      | none => []
      | some t =>
        [⟨"customer_tier", some (t.tier_name ++ " Tier"), t.discount_percentage,
          price * t.discount_percentage / 100 * quantity⟩]

/-- The committed database after one member of the `bulkApprove` loop: the
member's own transaction state on success, the untouched state on failure. -/
def bulkStepDB (db : DB) (productId : Nat) (userId : String) (notes : Option String) : DB :=
  match transitionState db productId .approved userId notes with
  | .ok x => x.1
  | .error _ => db

/-- Fixture: an active product with base price 100 (concrete instances). -/
def productW1 : Product :=
  { id := 1, sku := "SKU-1", name := "Widget", description := none, category_id := none,
    size := none, color := none, unit_price := 100, attributes := none, is_active := true,
    lifecycle_state := .active, created_by := some "creator", approved_by := none,
    approved_at := none }

/-- Fixture: a 10% bulk rule on product 1, unbounded window. -/
def ruleBulk10on1 : PricingRule :=
  { id := 1, rule_name := "Bulk 10", rule_type := .bulk, product_id := some 1,
    category_id := none, min_quantity := 1, discount_percentage := 10, promo_name := none,
    valid_from := none, valid_until := none, is_active := true }

/-- Fixture: a 5% promotion on product 1, window [0, 100]. -/
def rulePromo5on1 : PricingRule :=
  { id := 2, rule_name := "Promo 5", rule_type := .promotion, product_id := some 1,
    category_id := none, min_quantity := 1, discount_percentage := 5,
    promo_name := some "Promo 5", valid_from := some 0, valid_until := some 100,
    is_active := true }

/-- Fixture database for the spec's worked pricing example. -/
def dbC1 : DB :=
  { products := [productW1], categories := [], rules := [ruleBulk10on1, rulePromo5on1],
    history := [], today := 50, now := 0, year := 2025 }

/-- Fixture: an active product with base price 99.99. -/
def productW2 : Product :=
  { id := 1, sku := "SKU-2", name := "Widget99", description := none, category_id := none,
    size := none, color := none, unit_price := 9999 / 100, attributes := none,
    is_active := true, lifecycle_state := .active, created_by := some "creator",
    approved_by := none, approved_at := none }

/-- Fixture database for the rounding counterexample: base 99.99 with one
10% bulk rule. -/
def dbC2 : DB :=
  { products := [productW2], categories := [], rules := [ruleBulk10on1], history := [],
    today := 50, now := 0, year := 2025 }

/-- The breakdown `calculatePrice dbC2 1 10 none` produces: the raw per-unit
price is 89.991, so `pricePerUnit` rounds to 89.99 while `finalTotal` rounds
899.91 to 899.91. -/
def breakdownC2 : PriceBreakdown :=
  { productId := 1, productName := "Widget99", sku := "SKU-2", quantity := 10,
    basePrice := 9999 / 100, pricePerUnit := 8999 / 100, subtotal := 9999 / 10,
    totalDiscount := 9999 / 100, finalTotal := 89991 / 100,
    appliedDiscounts := [⟨"bulk", some "Bulk 10", 10, 9999 / 100⟩] }

/-- Fixture: an archived product. -/
def productArch : Product :=
  { id := 1, sku := "SKU-A", name := "Old", description := none, category_id := none,
    size := none, color := none, unit_price := 10, attributes := none, is_active := false,
    lifecycle_state := .archived, created_by := some "creator", approved_by := none,
    approved_at := none }

/-- Fixture database with a single archived product. -/
def dbC3 : DB :=
  { products := [productArch], categories := [], rules := [], history := [], today := 50,
    now := 0, year := 2025 }

/-- Fixture: an empty database. -/
def db0 : DB :=
  { products := [], categories := [], rules := [], history := [], today := 50, now := 0,
    year := 2025 }

/-- Fixture: a creation request with an explicit SKU. -/
def pd0 : ProductData :=
  { sku := some "SKU-N", name := "New", description := none, category_id := none,
    size := none, color := none, unit_price := 10, attributes := none }

/-- The product row `createProduct db0 pd0 "creator"` inserts: DRAFT state
with the `is_active` column default `true`. -/
def prodC4 : Product :=
  { id := 1, sku := "SKU-N", name := "New", description := none, category_id := none,
    size := none, color := none, unit_price := 10, attributes := none, is_active := true,
    lifecycle_state := .draft, created_by := some "creator", approved_by := none,
    approved_at := none }

/-- The database state after `createProduct db0 pd0 "creator"`. -/
def dbC4' : DB :=
  { products := [prodC4], categories := [], rules := [], history :=
      [⟨1, none, .draft, some "creator", some "Product created"⟩], today := 50, now := 0,
    year := 2025 }

/-- Fixture: an approved product violating all three activation rules. -/
def productBad : Product :=
  { id := 1, sku := "", name := "Bad", description := none, category_id := none,
    size := none, color := none, unit_price := 0, attributes := none, is_active := false,
    lifecycle_state := .approved, created_by := some "creator", approved_by := some "boss",
    approved_at := some 0 }

/-- Fixture database with the invalid approved product. -/
def dbC5 : DB :=
  { products := [productBad], categories := [], rules := [], history := [], today := 50,
    now := 0, year := 2025 }

/-- Fixture: pending-approval product with a given id. -/
def pendingProduct (i : Nat) : Product :=
  { id := i, sku := "SKU-P" ++ toString i, name := "Pending", description := none,
    category_id := some 1, size := none, color := none, unit_price := 10,
    attributes := none, is_active := false, lifecycle_state := .pending_approval,
    created_by := some "creator", approved_by := none, approved_at := none }

/-- Fixture for bulk approval: products 1 and 3 pending, product 2 archived. -/
def dbC6 : DB :=
  { products := [pendingProduct 1, { productArch with id := 2, sku := "SKU-A2" },
      pendingProduct 3], categories := [], rules := [], history := [], today := 50,
    now := 0, year := 2025 }

/-- Fixture: a 20% bulk rule on product 1 from quantity 5. -/
def ruleBulk5 : PricingRule :=
  { id := 10, rule_name := "Bulk from 5", rule_type := .bulk, product_id := some 1,
    category_id := none, min_quantity := 5, discount_percentage := 20, promo_name := none,
    valid_from := none, valid_until := none, is_active := true }

/-- Fixture: a 10% bulk rule on product 1 from quantity 10 (closer tier). -/
def ruleBulk10 : PricingRule :=
  { id := 11, rule_name := "Bulk from 10", rule_type := .bulk, product_id := some 1,
    category_id := none, min_quantity := 10, discount_percentage := 10, promo_name := none,
    valid_from := none, valid_until := none, is_active := true }

/-- Fixture: a 5% product promotion with an open window. -/
def rulePromo5 : PricingRule :=
  { id := 12, rule_name := "Promo five", rule_type := .promotion, product_id := some 1,
    category_id := none, min_quantity := 1, discount_percentage := 5,
    promo_name := some "Promo five", valid_from := some 0, valid_until := some 100,
    is_active := true }

/-- Fixture: an 8% global promotion with an open window. -/
def rulePromo8 : PricingRule :=
  { id := 13, rule_name := "Promo eight", rule_type := .promotion, product_id := none,
    category_id := none, min_quantity := 1, discount_percentage := 8,
    promo_name := some "Promo eight", valid_from := some 0, valid_until := some 100,
    is_active := true }

/-- Fixture rule set for the rule-store claim. -/
def rulesC7 : List PricingRule := [ruleBulk5, ruleBulk10, rulePromo5, rulePromo8]

/-- Fixture: an inactive product with a given id. -/
def inactiveProduct : Product :=
  { id := 2, sku := "SKU-I", name := "Inactive", description := none, category_id := none,
    size := none, color := none, unit_price := 50, attributes := none, is_active := false,
    lifecycle_state := .discontinued, created_by := some "creator", approved_by := none,
    approved_at := none }

/-- Fixture database for the bundle-failure claim: product 1 active,
product 2 inactive. -/
def dbC9 : DB :=
  { products := [{ productW1 with unit_price := 50 }, inactiveProduct], categories := [],
    rules := [], history := [], today := 50, now := 0, year := 2025 }

/-- Fixture bundle whose second item names the inactive product. -/
def itemsC9 : List BundleItem := [⟨1, 1, none⟩, ⟨2, 1, none⟩]

/-- Fixture: a 3% category rule for category 1 (no product scope). -/
def ruleCat1 : PricingRule :=
  { id := 14, rule_name := "Cat sale", rule_type := .category, product_id := none,
    category_id := some 1, min_quantity := 1, discount_percentage := 3, promo_name := none,
    valid_from := none, valid_until := none, is_active := true }

/-- Fixture: a 10% bulk rule scoped to a different product (id 2). -/
def ruleBulkOn2 : PricingRule :=
  { id := 15, rule_name := "Bulk other", rule_type := .bulk, product_id := some 2,
    category_id := none, min_quantity := 1, discount_percentage := 10, promo_name := none,
    valid_from := none, valid_until := none, is_active := true }

/-- Fixture database for the archival cascade: a draft product 1 and rules of
all three scopes. -/
def dbC8 : DB :=
  { products := [prodC4], categories := [], rules := [ruleBulk10on1, rulePromo8, ruleCat1,
      ruleBulkOn2], history := [], today := 50, now := 0, year := 2025 }

theorem bulkStep_fst (basePrice : ℚ) (quantity : Nat) (o : Option PricingRule)
    (ds : List AppliedDiscount) :
    (bulkStep basePrice quantity o (basePrice, ds)).1 = basePrice * (1 - rulePct o / 100) := by
  cases o
  · simp [bulkStep, rulePct]
  · simp only [bulkStep, rulePct]
    ring

theorem promoStep_fst (quantity : Nat) (o : Option PricingRule) (st : ℚ × List AppliedDiscount) :
    (promoStep quantity o st).1 = st.1 * (1 - rulePct o / 100) := by
  cases o
  · simp [promoStep, rulePct]
  · simp only [promoStep, rulePct]
    ring

theorem categoryStep_fst (quantity : Nat) (o : Option PricingRule)
    (st : ℚ × List AppliedDiscount) :
    (categoryStep quantity o st).1 = st.1 * (1 - rulePct o / 100) := by
  cases o
  · simp [categoryStep, rulePct]
  · simp only [categoryStep, rulePct]
    ring

theorem tierStep_fst (quantity : Nat) (o : Option TierDiscount) (st : ℚ × List AppliedDiscount) :
    (tierStep quantity o st).1 = st.1 * (1 - tierPctOf o / 100) := by
  cases o
  · simp [tierStep, tierPctOf]
  · simp only [tierStep, tierPctOf]
    ring

theorem bulkStep_snd (basePrice : ℚ) (quantity : Nat) (o : Option PricingRule)
    (ds : List AppliedDiscount) :
    (bulkStep basePrice quantity o (basePrice, ds)).2 = ds ++ bulkEntries basePrice quantity o := by
  cases o <;> simp [bulkStep, bulkEntries]

theorem promoStep_snd (quantity : Nat) (o : Option PricingRule) (st : ℚ × List AppliedDiscount) :
    (promoStep quantity o st).2 = st.2 ++ promoEntries st.1 quantity o := by
  cases o <;> simp [promoStep, promoEntries]

theorem categoryStep_snd (quantity : Nat) (o : Option PricingRule)
    (st : ℚ × List AppliedDiscount) :
    (categoryStep quantity o st).2 = st.2 ++ categoryEntries st.1 quantity o := by
  cases o <;> simp [categoryStep, categoryEntries]

theorem tierStep_snd (quantity : Nat) (o : Option TierDiscount) (st : ℚ × List AppliedDiscount) :
    (tierStep quantity o st).2 = st.2 ++
      (match o with
        | none => []
        | some t =>
          [⟨"customer_tier", some (t.tier_name ++ " Tier"), t.discount_percentage,
            st.1 * t.discount_percentage / 100 * quantity⟩]) := by
  cases o <;> simp [tierStep]

theorem chainA_fst (quantity : Nat) (basePrice : ℚ) (ob op oc : Option PricingRule) :
    (categoryStep quantity oc (promoStep quantity op
      (bulkStep basePrice quantity ob (basePrice, [])))).1
      = basePrice * (1 - rulePct ob / 100) * (1 - rulePct op / 100)
          * (1 - rulePct oc / 100) := by
  rw [categoryStep_fst, promoStep_fst, bulkStep_fst]

theorem chainA_snd (quantity : Nat) (basePrice : ℚ) (ob op oc : Option PricingRule) :
    (categoryStep quantity oc (promoStep quantity op
      (bulkStep basePrice quantity ob (basePrice, [])))).2
      = bulkEntries basePrice quantity ob
        ++ promoEntries (basePrice * (1 - rulePct ob / 100)) quantity op
        ++ categoryEntries (basePrice * (1 - rulePct ob / 100) * (1 - rulePct op / 100))
            quantity oc := by
  rw [categoryStep_snd, promoStep_snd, bulkStep_snd, promoStep_fst, bulkStep_fst,
    List.nil_append]

theorem custEntries_none (price : ℚ) (quantity : Nat) :
    custEntries price quantity none = [] := rfl

/-- Full characterization of a successful `calculatePrice` call: the running
price is the base price times one `1 - pct / 100` factor per matched step
(bulk on the base price, later steps chained), the applied discounts are
listed in step order with each amount computed on the price its step saw,
and the totals are the rounded raw values. -/
theorem calculatePrice_ok (db : DB) (productId quantity : Nat) (customerId : Option Nat)
    (product : Product) (h : getProductWithPricing db.products productId = some product) :
    ∃ bd, calculatePrice db productId quantity customerId = .ok bd ∧
      bd.productId = productId ∧ bd.quantity = quantity ∧
      bd.productName = product.name ∧ bd.sku = product.sku ∧
      bd.basePrice = round2 product.unit_price ∧
      bd.pricePerUnit = round2 (effectivePrice db productId quantity customerId product) ∧
      bd.subtotal = round2 (product.unit_price * quantity) ∧
      bd.finalTotal = round2 (effectivePrice db productId quantity customerId product * quantity) ∧
      bd.appliedDiscounts =
        bulkEntries product.unit_price quantity
          (getBulkDiscount db.rules db.today productId quantity)
        ++ promoEntries
            (product.unit_price
              * (1 - rulePct (getBulkDiscount db.rules db.today productId quantity) / 100))
            quantity (getActiveTimePromotion db.rules db.today productId)
        ++ categoryEntries
            (product.unit_price
              * (1 - rulePct (getBulkDiscount db.rules db.today productId quantity) / 100)
              * (1 - rulePct (getActiveTimePromotion db.rules db.today productId) / 100))
            quantity (getCategoryDiscount db.rules db.today product.category_id)
        ++ custEntries
            (product.unit_price
              * (1 - rulePct (getBulkDiscount db.rules db.today productId quantity) / 100)
              * (1 - rulePct (getActiveTimePromotion db.rules db.today productId) / 100)
              * (1 - rulePct (getCategoryDiscount db.rules db.today product.category_id) / 100))
            quantity customerId := by
  unfold calculatePrice
  rw [h]
  rcases customerId with _ | cid
  · refine ⟨_, rfl, rfl, rfl, rfl, rfl, rfl, ?_, rfl, ?_, ?_⟩
    · rw [chainA_fst]
      simp [effectivePrice, custPct]
    · rw [chainA_fst]
      simp [effectivePrice, custPct]
    · rw [chainA_snd]
      simp [custEntries_none]
  · by_cases hc : cid = 0
    · refine ⟨_, rfl, rfl, rfl, rfl, rfl, rfl, ?_, rfl, ?_, ?_⟩
      · simp only [if_pos hc]
        rw [chainA_fst]
        simp [effectivePrice, custPct, hc]
      · simp only [if_pos hc]
        rw [chainA_fst]
        simp [effectivePrice, custPct, hc]
      · simp only [if_pos hc]
        rw [chainA_snd]
        simp [custEntries, hc]
    · refine ⟨_, rfl, rfl, rfl, rfl, rfl, rfl, ?_, rfl, ?_, ?_⟩
      · simp only [if_neg hc]
        rw [tierStep_fst, chainA_fst]
        simp [effectivePrice, custPct, hc]
      · simp only [if_neg hc]
        rw [tierStep_fst, chainA_fst]
        simp [effectivePrice, custPct, hc]
      · simp only [if_neg hc]
        rw [tierStep_snd, chainA_snd, chainA_fst]
        simp only [custEntries, if_neg hc]

theorem maxBy_eq_nil {β : Type} [LinearOrder β] (f : PricingRule → β) (l : List PricingRule)
    (h : maxBy f l = none) : l = [] := by
  cases l with
  | nil => rfl
  | cons a t =>
    rw [maxBy] at h
    split at h
    · cases h
    · split at h
      · cases h
      · cases h

theorem maxBy_mem {β : Type} [LinearOrder β] (f : PricingRule → β) (l : List PricingRule)
    (r : PricingRule) (hm : maxBy f l = some r) : r ∈ l := by
  induction l generalizing r with
  | nil => cases hm
  | cons a t ih =>
    rw [maxBy] at hm
    split at hm
    · cases hm
      exact List.mem_cons_self a t
    · rename_i b heq
      split at hm
      · cases hm
        exact List.mem_cons_self a t
      · cases hm
        exact List.mem_cons_of_mem a (ih r heq)

theorem maxBy_le {β : Type} [LinearOrder β] (f : PricingRule → β) (l : List PricingRule)
    (r : PricingRule) (hm : maxBy f l = some r) : ∀ x ∈ l, f x ≤ f r := by
  induction l generalizing r with
  | nil => cases hm
  | cons a t ih =>
    rw [maxBy] at hm
    split at hm
    · rename_i heq
      cases hm
      intro x hx
      rcases List.mem_cons.mp hx with hxa | hxt
      · rw [hxa]
      · rw [maxBy_eq_nil f t heq] at hxt
        cases hxt
    · rename_i b heq
      split at hm
      · rename_i hle
        cases hm
        intro x hx
        rcases List.mem_cons.mp hx with hxa | hxt
        · rw [hxa]
        · exact le_trans (ih b heq x hxt) hle
      · rename_i hle
        cases hm
        intro x hx
        rcases List.mem_cons.mp hx with hxa | hxt
        · rw [hxa]; exact le_of_lt (lt_of_not_le hle)
        · exact ih r heq x hxt

theorem round2_mono (x y : ℚ) (h : x ≤ y) : round2 x ≤ round2 y := by
  unfold round2
  have hf : (⌊x * 100 + 1 / 2⌋ : ℤ) ≤ ⌊y * 100 + 1 / 2⌋ := Int.floor_le_floor (by linarith)
  have h100 : (0 : ℚ) < 100 := by norm_num
  exact (div_le_div_right h100).mpr (by exact_mod_cast hf)

theorem round2_nonneg (x : ℚ) (h : 0 ≤ x) : 0 ≤ round2 x := by
  unfold round2
  apply div_nonneg _ (by norm_num)
  have hf : (0 : ℤ) ≤ ⌊x * 100 + 1 / 2⌋ := Int.floor_nonneg.mpr (by linarith)
  exact_mod_cast hf

theorem bulkApprove_nil (db : DB) (userId : String) (notes : Option String) :
    bulkApprove db [] userId notes = (db, []) := rfl

theorem bulkApprove_cons (db : DB) (productId : Nat) (rest : List Nat) (userId : String)
    (notes : Option String) :
    bulkApprove db (productId :: rest) userId notes
      = ((bulkApprove (bulkStepDB db productId userId notes) rest userId notes).1,
          mkBulkResult productId (transitionState db productId .approved userId notes)
            :: (bulkApprove (bulkStepDB db productId userId notes) rest userId notes).2) := by
  rw [bulkApprove]
  cases h : transitionState db productId .approved userId notes with
  | ok x => simp [bulkStepDB, h, mkBulkResult]
  | error e => simp [bulkStepDB, h, mkBulkResult]

theorem bundleLoop_error (db : DB) (items : List BundleItem) (item : BundleItem) (e : String)
    (hmem : item ∈ items)
    (he : calculatePrice db item.productId item.quantity item.customerId = .error e) :
    ∃ e', bundleLoop db items = .error e' := by
  induction items with
  | nil => cases hmem
  | cons hd tl ih =>
    cases hcp : calculatePrice db hd.productId hd.quantity hd.customerId with
    | error e2 =>
      refine ⟨e2, ?_⟩
      simp [bundleLoop, hcp]
    | ok pr =>
      rcases List.mem_cons.mp hmem with heq | htl
      · rw [← heq] at hcp
        rw [hcp] at he
        cases he
      · obtain ⟨e', hl⟩ := ih htl
        refine ⟨e', ?_⟩
        simp [bundleLoop, hcp, hl]

theorem getBulkDiscount_some (rules : List PricingRule) (today : Int) (productId quantity : Nat)
    (r : PricingRule) (h : getBulkDiscount rules today productId quantity = some r) :
    r ∈ rules ∧ bulkMatches today productId quantity r = true ∧
      ∀ r' ∈ rules, bulkMatches today productId quantity r' = true →
        r'.min_quantity ≤ r.min_quantity := by
  have hmem := maxBy_mem _ _ _ h
  have hmax := maxBy_le _ _ _ h
  rw [List.mem_filter] at hmem
  exact ⟨hmem.1, hmem.2, fun r' hr' hm' => hmax r' (List.mem_filter.mpr ⟨hr', hm'⟩)⟩

theorem getBulkDiscount_none (rules : List PricingRule) (today : Int) (productId quantity : Nat)
    (h : getBulkDiscount rules today productId quantity = none) :
    ∀ r ∈ rules, bulkMatches today productId quantity r = false := by
  have hnil := maxBy_eq_nil _ _ h
  rw [List.filter_eq_nil] at hnil
  intro r hr
  exact Bool.eq_false_iff.mpr fun hc => hnil r hr hc

theorem getActiveTimePromotion_some (rules : List PricingRule) (today : Int) (productId : Nat)
    (r : PricingRule) (h : getActiveTimePromotion rules today productId = some r) :
    r ∈ rules ∧ promotionMatches today productId r = true ∧
      ∀ r' ∈ rules, promotionMatches today productId r' = true →
        r'.discount_percentage ≤ r.discount_percentage := by
  have hmem := maxBy_mem _ _ _ h
  have hmax := maxBy_le _ _ _ h
  rw [List.mem_filter] at hmem
  exact ⟨hmem.1, hmem.2, fun r' hr' hm' => hmax r' (List.mem_filter.mpr ⟨hr', hm'⟩)⟩

theorem getActiveTimePromotion_none (rules : List PricingRule) (today : Int) (productId : Nat)
    (h : getActiveTimePromotion rules today productId = none) :
    ∀ r ∈ rules, promotionMatches today productId r = false := by
  have hnil := maxBy_eq_nil _ _ h
  rw [List.filter_eq_nil] at hnil
  intro r hr
  exact Bool.eq_false_iff.mpr fun hc => hnil r hr hc

theorem getCategoryDiscount_some (rules : List PricingRule) (today : Int)
    (categoryId : Option Nat) (r : PricingRule)
    (h : getCategoryDiscount rules today categoryId = some r) : r ∈ rules := by
  cases categoryId with
  | none => cases h
  | some cid =>
    have hmem := maxBy_mem _ _ _ h
    rw [List.mem_filter] at hmem
    exact hmem.1

theorem custPct_bounds (customerId : Option Nat) :
    0 ≤ custPct customerId ∧ custPct customerId ≤ 100 := by
  rcases customerId with _ | cid
  · simp [custPct]
  · by_cases hc : cid = 0
    · simp [custPct, hc]
    · simp only [custPct, if_neg hc]
      rcases h4 : cid % 4 with _ | _ | _ | m
      · simp [tierPctOf, getCustomerTierDiscount, getCustomerTier, h4]
        norm_num
      · simp [tierPctOf, getCustomerTierDiscount, getCustomerTier, h4]
        norm_num
      · simp [tierPctOf, getCustomerTierDiscount, getCustomerTier, h4]
        norm_num
      · simp [tierPctOf, getCustomerTierDiscount, getCustomerTier, h4]

theorem createProduct_row (db : DB) (pd : ProductData) (cb : String) (db' : DB)
    (p : Product) (hok : createProduct db pd cb = .ok (db', p)) :
    p.is_active = true ∧ p.lifecycle_state = .draft := by
  simp only [createProduct] at hok
  split at hok
  · cases hok
  · cases hok
    exact ⟨rfl, rfl⟩

theorem transitionState_row (db : DB) (pid : Nat) (ns : LifecycleState) (uid : String)
    (notes : Option String) (db' : DB) (p : Product)
    (hok : transitionState db pid ns uid notes = .ok (db', p)) :
    p.lifecycle_state = ns ∧
    (ns = .active → p.is_active = true) ∧
    ((ns = .discontinued ∨ ns = .archived) → p.is_active = false) ∧
    (ns ≠ .active → ns ≠ .discontinued → ns ≠ .archived →
      ∃ product, db.products.find? (fun q => q.id == pid) = some product ∧
        p.is_active = product.is_active) := by
  simp only [transitionState] at hok
  split at hok
  · cases hok
  · rename_i product hfind
    split at hok
    · split at hok
      · cases hok
      · rename_i db1 hh
        cases hok
        refine ⟨rfl, ?_, ?_, ?_⟩
        · intro h
          simp [applyStateUpdate, h]
        · intro h
          rcases h with h | h <;> simp [applyStateUpdate, h]
        · intro h1 h2 h3
          exact ⟨product, hfind, by simp [applyStateUpdate, h1, h2, h3]⟩
    · cases hok

/-- C1: `calculatePrice` applies the discounts in the fixed order bulk,
promotion, category, customer tier. The per-unit price is the base price
times one `1 - pct / 100` factor per step, where the bulk factor uses the
base price and every later factor multiplies the running price left by the
previous step; the applied-discount list records the steps in this order,
each amount computed on the price its step saw. The spec's worked example
(base 100, 10% bulk, 5% promotion, `pricePerUnit = 85.5`) is the witness. -/
theorem claim_C1 (db : DB) (productId quantity : Nat) (customerId : Option Nat)
    (product : Product) (h : getProductWithPricing db.products productId = some product) :
    ∃ bd, calculatePrice db productId quantity customerId = .ok bd ∧
      bd.pricePerUnit = round2 (product.unit_price
        * (1 - rulePct (getBulkDiscount db.rules db.today productId quantity) / 100)
        * (1 - rulePct (getActiveTimePromotion db.rules db.today productId) / 100)
        * (1 - rulePct (getCategoryDiscount db.rules db.today product.category_id) / 100)
        * (1 - custPct customerId / 100)) ∧
      bd.appliedDiscounts =
        bulkEntries product.unit_price quantity
          (getBulkDiscount db.rules db.today productId quantity)
        ++ promoEntries
            (product.unit_price
              * (1 - rulePct (getBulkDiscount db.rules db.today productId quantity) / 100))
            quantity (getActiveTimePromotion db.rules db.today productId)
        ++ categoryEntries
            (product.unit_price
              * (1 - rulePct (getBulkDiscount db.rules db.today productId quantity) / 100)
              * (1 - rulePct (getActiveTimePromotion db.rules db.today productId) / 100))
            quantity (getCategoryDiscount db.rules db.today product.category_id)
        ++ custEntries
            (product.unit_price
              * (1 - rulePct (getBulkDiscount db.rules db.today productId quantity) / 100)
              * (1 - rulePct (getActiveTimePromotion db.rules db.today productId) / 100)
              * (1 - rulePct (getCategoryDiscount db.rules db.today product.category_id) / 100))
            quantity customerId := by
  obtain ⟨bd, hok, _, _, _, _, _, hppu, _, _, hdisc⟩ :=
    calculatePrice_ok db productId quantity customerId product h
  refine ⟨bd, hok, ?_, hdisc⟩
  rw [hppu, effectivePrice]

/-- C1 witness: base price 100 with the 10% bulk rule and the 5% promotion
rule gives `pricePerUnit = 85.5`. -/
theorem claim_C1_witness :
    getProductWithPricing dbC1.products 1 = some productW1 ∧
    (∃ bd, calculatePrice dbC1 1 1 none = .ok bd ∧ bd.pricePerUnit = 171 / 2) := by
  refine ⟨rfl, ?_⟩
  obtain ⟨bd, hok, hppu, _⟩ := claim_C1 dbC1 1 1 none productW1 rfl
  refine ⟨bd, hok, ?_⟩
  rw [hppu]
  have hb : rulePct (getBulkDiscount dbC1.rules dbC1.today 1 1) = 10 := by
    norm_num [getBulkDiscount, bulkMatches, maxBy, dbC1, ruleBulk10on1, rulePromo5on1, rulePct]
  have hp : rulePct (getActiveTimePromotion dbC1.rules dbC1.today 1) = 5 := by
    norm_num [getActiveTimePromotion, promotionMatches, maxBy, dbC1, ruleBulk10on1,
      rulePromo5on1, rulePct]
  have hc : rulePct (getCategoryDiscount dbC1.rules dbC1.today productW1.category_id) = 0 := by
    simp [productW1, getCategoryDiscount, rulePct]
  rw [hb, hp, hc]
  norm_num [custPct, round2, productW1]

/-- C2 counterexample: with base price 99.99, a matching 10% bulk rule and
quantity 10, the raw per-unit price is 89.991, so the code returns
`finalTotal = 899.91` while `round(pricePerUnit * quantity, 2)` computed
from the rounded `pricePerUnit = 89.99` is `899.90`. -/
theorem claim_C2_counterexample :
    calculatePrice dbC2 1 10 none = .ok breakdownC2 ∧
    breakdownC2.finalTotal ≠ round2 (breakdownC2.pricePerUnit * (breakdownC2.quantity : ℚ)) := by
  constructor
  · simp [calculatePrice, dbC2, productW2, getProductWithPricing, getBulkDiscount,
      getActiveTimePromotion, getCategoryDiscount, bulkMatches, promotionMatches, maxBy,
      ruleBulk10on1, bulkStep, promoStep, categoryStep, breakdownC2, round2]
    norm_num
  · norm_num [breakdownC2, round2]

/-- C2 amended: `finalTotal` equals `round(raw * quantity, 2)` where `raw`
is the unrounded running per-unit price and `pricePerUnit = round(raw, 2)`;
the identity with the rounded `pricePerUnit` does not hold in general. -/
theorem claim_C2 (db : DB) (productId quantity : Nat) (customerId : Option Nat)
    (product : Product) (h : getProductWithPricing db.products productId = some product) :
    ∃ bd, calculatePrice db productId quantity customerId = .ok bd ∧
      bd.quantity = quantity ∧
      bd.pricePerUnit = round2 (effectivePrice db productId quantity customerId product) ∧
      bd.finalTotal = round2 (effectivePrice db productId quantity customerId product
        * quantity) := by
  obtain ⟨bd, hok, _, hq, _, _, _, hppu, _, hft, _⟩ :=
    calculatePrice_ok db productId quantity customerId product h
  exact ⟨bd, hok, hq, hppu, hft⟩

/-- C2 witness: for base 99.99 with the 10% bulk rule the raw per-unit price
is 89.991 and both outputs are rounded from it. -/
theorem claim_C2_witness :
    getProductWithPricing dbC2.products 1 = some productW2 ∧
    effectivePrice dbC2 1 10 none productW2 = 89991 / 1000 ∧
    (∃ bd, calculatePrice dbC2 1 10 none = .ok bd ∧
      bd.pricePerUnit = round2 (89991 / 1000) ∧
      bd.finalTotal = round2 (89991 / 1000 * ((10 : Nat) : ℚ))) := by
  have heff : effectivePrice dbC2 1 10 none productW2 = 89991 / 1000 := by
    have hb : rulePct (getBulkDiscount dbC2.rules dbC2.today 1 10) = 10 := by
      norm_num [getBulkDiscount, bulkMatches, maxBy, dbC2, ruleBulk10on1, rulePct]
    have hp : rulePct (getActiveTimePromotion dbC2.rules dbC2.today 1) = 0 := by
      norm_num [getActiveTimePromotion, promotionMatches, maxBy, dbC2, ruleBulk10on1, rulePct]
    rw [effectivePrice, hb, hp]
    norm_num [productW2, getCategoryDiscount, rulePct, custPct]
  obtain ⟨bd, hok, hq, hppu, hft⟩ := claim_C2 dbC2 1 10 none productW2 rfl
  refine ⟨rfl, heff, bd, hok, ?_, ?_⟩
  · rw [hppu, heff]
  · rw [hft, heff]

/-- C3: for any current state, a requested target outside its allow-list
makes `transitionState` fail with an InvalidTransition error carrying the
(current, attempted) pair, and the rollback leaves the database unchanged;
`archived` has an empty allow-list, so every transition from it fails. -/
theorem claim_C3 (db : DB) (productId : Nat) (newState : LifecycleState) (userId : String)
    (notes : Option String) (product : Product)
    (hfind : db.products.find? (fun p => p.id == productId) = some product)
    (hinv : newState ∉ TRANSITIONS product.lifecycle_state) :
    runTransitionState db productId newState userId notes
      = (db, .error (.invalidTransition product.lifecycle_state newState)) := by
  have hv : validateTransition product.lifecycle_state newState = false := by
    simp [validateTransition, hinv]
  simp [runTransitionState, transitionState, hfind, hv]

/-- C3 witness: activating an archived product fails with the
(archived, active) pair and the database is returned unchanged. -/
theorem claim_C3_witness :
    dbC3.products.find? (fun p => p.id == 1) = some productArch ∧
    LifecycleState.active ∉ TRANSITIONS productArch.lifecycle_state ∧
    runTransitionState dbC3 1 .active "admin" none
      = (dbC3, .error (.invalidTransition .archived .active)) := by
  refine ⟨rfl, by decide, ?_⟩
  exact claim_C3 dbC3 1 .active "admin" none productArch rfl (by decide)

/-- C4 counterexample: `createProduct` inserts the row in `draft` state while
the `is_active` column default from the migration is `true`, so a freshly
created product violates the claimed biconditional
`is_active = true ↔ lifecycle_state = active`. -/
theorem claim_C4_counterexample :
    createProduct db0 pd0 "creator" = .ok (dbC4', prodC4) ∧
    prodC4.is_active = true ∧ prodC4.lifecycle_state = .draft ∧
    ¬(prodC4.is_active = true ↔ prodC4.lifecycle_state = .active) := by
  refine ⟨rfl, rfl, rfl, by decide⟩

/-- C4 amended: creation always yields a `draft` row with `is_active = true`
(the column default); a successful transition sets `is_active` to true for
target `active`, to false for targets `discontinued` and `archived`, and
otherwise keeps the previous value — so the iff-invariant holds only after
transitions into those three states, not at creation. -/
theorem claim_C4 :
    (∀ (db : DB) (pd : ProductData) (cb : String) (db' : DB) (p : Product),
      createProduct db pd cb = .ok (db', p) →
        p.is_active = true ∧ p.lifecycle_state = .draft) ∧
    (∀ (db : DB) (pid : Nat) (ns : LifecycleState) (uid : String) (notes : Option String)
        (db' : DB) (p : Product), transitionState db pid ns uid notes = .ok (db', p) →
        p.lifecycle_state = ns ∧
        (ns = .active → p.is_active = true) ∧
        ((ns = .discontinued ∨ ns = .archived) → p.is_active = false) ∧
        (ns ≠ .active → ns ≠ .discontinued → ns ≠ .archived →
          ∃ product, db.products.find? (fun q => q.id == pid) = some product ∧
            p.is_active = product.is_active)) :=
  ⟨fun db pd cb db' p hok => createProduct_row db pd cb db' p hok,
   fun db pid ns uid notes db' p hok => transitionState_row db pid ns uid notes db' p hok⟩

/-- C4 witness: the concrete creation yields a draft row with
`is_active = true`. -/
theorem claim_C4_witness :
    createProduct db0 pd0 "creator" = .ok (dbC4', prodC4) ∧
    prodC4.is_active = true ∧ prodC4.lifecycle_state = .draft := by
  have h := claim_C4.1 db0 pd0 "creator" dbC4' prodC4 rfl
  exact ⟨rfl, h.1, h.2⟩

/-- C5: a transition to `active` on a product violating any activation rule
fails with a ValidationError whose list contains exactly the violated rules
(each of the three messages is present iff its rule is violated), and the
rollback leaves the database unchanged. -/
theorem claim_C5 (db : DB) (productId : Nat) (userId : String) (notes : Option String)
    (product : Product)
    (hfind : db.products.find? (fun p => p.id == productId) = some product)
    (hvalid : validateTransition product.lifecycle_state .active = true)
    (herr : activationErrors product ≠ []) :
    runTransitionState db productId .active userId notes
      = (db, .error (.validationFailed (activationErrors product)))
    ∧ ("Valid unit price required" ∈ activationErrors product ↔ product.unit_price ≤ 0)
    ∧ ("SKU required" ∈ activationErrors product ↔ product.sku = "")
    ∧ ("Category required" ∈ activationErrors product ↔ product.category_id = none) := by
  refine ⟨?_, ?_, ?_, ?_⟩
  · have hh : handleStateTransition db product .active
        = .error (.validationFailed (activationErrors product)) := by
      simp [handleStateTransition, validateProductForActivation, herr]
    simp [runTransitionState, transitionState, hfind, hvalid, hh]
  · unfold activationErrors
    split_ifs <;> simp_all
  · unfold activationErrors
    split_ifs <;> simp_all
  · unfold activationErrors
    split_ifs <;> simp_all

/-- C5 witness: an approved product with zero price, empty SKU and no
category fails activation with all three messages listed, state unchanged. -/
theorem claim_C5_witness :
    dbC5.products.find? (fun p => p.id == 1) = some productBad ∧
    validateTransition productBad.lifecycle_state .active = true ∧
    activationErrors productBad
      = ["Valid unit price required", "SKU required", "Category required"] ∧
    runTransitionState dbC5 1 .active "admin" none
      = (dbC5, .error (.validationFailed
          ["Valid unit price required", "SKU required", "Category required"])) := by
  have herr : activationErrors productBad
      = ["Valid unit price required", "SKU required", "Category required"] := by
    norm_num [activationErrors, productBad]
  refine ⟨rfl, by decide, herr, ?_⟩
  have h := claim_C5 dbC5 1 "admin" none productBad rfl (by decide)
    (by rw [herr]; simp)
  rw [herr] at h
  exact h.1

/-- C6: `bulkApprove` returns one result entry per requested id; entry `i`
is exactly the outcome of independently attempting the `approved` transition
for id `i` on the state left by the previous members, recorded as success or
as failure with the error message — so a member failure never aborts the
loop and earlier successes are kept. -/
theorem claim_C6 (db : DB) (productIds : List Nat) (userId : String) (notes : Option String) :
    (bulkApprove db productIds userId notes).2.length = productIds.length ∧
    ∀ i pid, productIds[i]? = some pid →
      (bulkApprove db productIds userId notes).2[i]?
        = some (mkBulkResult pid
            (transitionState (bulkApprove db (productIds.take i) userId notes).1 pid
              .approved userId notes)) := by
  induction productIds generalizing db with
  | nil =>
    refine ⟨rfl, ?_⟩
    intro i pid h
    simp at h
  | cons p rest ih =>
    refine ⟨?_, ?_⟩
    · rw [bulkApprove_cons]
      simp [(ih (bulkStepDB db p userId notes)).1]
    · intro i pid h
      cases i with
      | zero =>
        simp only [List.getElem?_cons_zero, Option.some.injEq] at h
        subst h
        rw [bulkApprove_cons]
        simp [bulkApprove_nil]
      | succ j =>
        simp only [List.getElem?_cons_succ] at h
        have hgoal := (ih (bulkStepDB db p userId notes)).2 j pid h
        rw [bulkApprove_cons]
        simp only [List.getElem?_cons_succ, List.take_succ_cons]
        have h1 : (bulkApprove db (p :: List.take j rest) userId notes).1
            = (bulkApprove (bulkStepDB db p userId notes) (List.take j rest) userId notes).1 := by
          rw [bulkApprove_cons]
        rw [h1]
        exact hgoal

/-- C6 witness: bulk-approving [1, 2, 3] where product 2 is archived yields
three entries — successes for 1 and 3 and a failure for 2 carrying the
InvalidTransition message — without the call failing. -/
theorem claim_C6_witness :
    (bulkApprove dbC6 [1, 2, 3] "admin" (some "Bulk approval")).2.length = 3 ∧
    (bulkApprove dbC6 [1, 2, 3] "admin" (some "Bulk approval")).2[1]?
      = some (mkBulkResult 2
          (transitionState (bulkApprove dbC6 [1] "admin" (some "Bulk approval")).1 2
            .approved "admin" (some "Bulk approval"))) ∧
    (mkBulkResult 2
        (transitionState (bulkApprove dbC6 [1] "admin" (some "Bulk approval")).1 2
          .approved "admin" (some "Bulk approval"))).success = false ∧
    (mkBulkResult 2
        (transitionState (bulkApprove dbC6 [1] "admin" (some "Bulk approval")).1 2
          .approved "admin" (some "Bulk approval"))).error
      = some "Invalid state transition: archived → approved" ∧
    (mkBulkResult 1
        (transitionState dbC6 1 .approved "admin" (some "Bulk approval"))).success = true ∧
    (mkBulkResult 3
        (transitionState (bulkApprove dbC6 [1, 2] "admin" (some "Bulk approval")).1 3
          .approved "admin" (some "Bulk approval"))).success = true := by
  have h := claim_C6 dbC6 [1, 2, 3] "admin" (some "Bulk approval")
  refine ⟨h.1, h.2 1 2 rfl, by decide, by decide, by decide, by decide⟩

/-- C7: a returned bulk rule is an applicable one (product-scoped, active,
`min_quantity ≤ quantity`, open window) with the highest `min_quantity`
among applicable rules; a returned promotion is an applicable one
(product-scoped or global, active, bounded open window) with the highest
percentage; and `none` is returned exactly when no rule applies. -/
theorem claim_C7 (rules : List PricingRule) (today : Int) (productId quantity : Nat) :
    (∀ r, getBulkDiscount rules today productId quantity = some r →
        r ∈ rules ∧ bulkMatches today productId quantity r = true ∧
          ∀ r' ∈ rules, bulkMatches today productId quantity r' = true →
            r'.min_quantity ≤ r.min_quantity) ∧
    (getBulkDiscount rules today productId quantity = none →
        ∀ r ∈ rules, bulkMatches today productId quantity r = false) ∧
    (∀ r, getActiveTimePromotion rules today productId = some r →
        r ∈ rules ∧ promotionMatches today productId r = true ∧
          ∀ r' ∈ rules, promotionMatches today productId r' = true →
            r'.discount_percentage ≤ r.discount_percentage) ∧
    (getActiveTimePromotion rules today productId = none →
        ∀ r ∈ rules, promotionMatches today productId r = false) :=
  ⟨fun r h => getBulkDiscount_some rules today productId quantity r h,
   fun h => getBulkDiscount_none rules today productId quantity h,
   fun r h => getActiveTimePromotion_some rules today productId r h,
   fun h => getActiveTimePromotion_none rules today productId h⟩

/-- C7 witness: with tiers at quantities 5 and 10 and quantity 12 the
closest tier (min_quantity 10) wins; with promotions at 5% and 8% the 8%
one wins; an empty rule set yields no rule. -/
theorem claim_C7_witness :
    getBulkDiscount rulesC7 50 1 12 = some ruleBulk10 ∧
    bulkMatches 50 1 12 ruleBulk10 = true ∧
    ruleBulk5.min_quantity ≤ ruleBulk10.min_quantity ∧
    getActiveTimePromotion rulesC7 50 1 = some rulePromo8 ∧
    promotionMatches 50 1 rulePromo8 = true ∧
    rulePromo5.discount_percentage ≤ rulePromo8.discount_percentage ∧
    getBulkDiscount [] 50 1 12 = none := by
  have hb : getBulkDiscount rulesC7 50 1 12 = some ruleBulk10 := by
    simp [getBulkDiscount, bulkMatches, maxBy, rulesC7, ruleBulk5, ruleBulk10, rulePromo5,
      rulePromo8]
  have hp : getActiveTimePromotion rulesC7 50 1 = some rulePromo8 := by
    simp [getActiveTimePromotion, promotionMatches, maxBy, rulesC7, ruleBulk5, ruleBulk10,
      rulePromo5, rulePromo8]
    norm_num
  refine ⟨hb, ?_, ?_, hp, ?_, ?_, rfl⟩
  · exact ((claim_C7 rulesC7 50 1 12).1 ruleBulk10 hb).2.1
  · exact ((claim_C7 rulesC7 50 1 12).1 ruleBulk10 hb).2.2 ruleBulk5 (by simp [rulesC7])
      (by norm_num [bulkMatches, ruleBulk5])
  · exact ((claim_C7 rulesC7 50 1 12).2.2.1 rulePromo8 hp).2.1
  · exact ((claim_C7 rulesC7 50 1 12).2.2.1 rulePromo8 hp).2.2 rulePromo5 (by simp [rulesC7])
      (by norm_num [promotionMatches, rulePromo5])

/-- C8: a successful transition to `archived` deactivates exactly the
pricing rules whose `product_id` is the archived product: the new rule
table is the old one with `is_active := false` on those rows, and every
rule scoped to another product, globally, or to a category is unchanged. -/
theorem claim_C8 (db : DB) (productId : Nat) (userId : String) (notes : Option String)
    (product : Product)
    (hfind : db.products.find? (fun p => p.id == productId) = some product)
    (hvalid : validateTransition product.lifecycle_state .archived = true) :
    ∃ db' p', transitionState db productId .archived userId notes = .ok (db', p') ∧
      db'.rules = db.rules.map (fun (r : PricingRule) =>
        if r.product_id == some productId then { r with is_active := false } else r) ∧
      (∀ r ∈ db.rules, r.product_id ≠ some productId → r ∈ db'.rules) := by
  have hid : product.id = productId := by
    have h := List.find?_some hfind
    simpa using h
  have hh : handleStateTransition db product .archived
      = .ok { db with rules := archiveRelatedData db.rules product.id } := rfl
  rcases hrun : transitionState db productId .archived userId notes with e | ⟨db', p'⟩
  · exfalso
    simp [transitionState, hfind, hvalid, hh] at hrun
  · simp only [transitionState, hfind, hvalid, hh, if_true] at hrun
    refine ⟨db', p', rfl, ?_, ?_⟩
    · obtain ⟨h1, h2⟩ := by simpa using hrun
      rw [← h1]
      simp [archiveRelatedData, hid]
    · intro r hr hne
      obtain ⟨h1, h2⟩ := by simpa using hrun
      rw [← h1]
      simp only [archiveRelatedData, hid]
      have hbe : (r.product_id == some productId) = false := by simp [hne]
      have hmm := List.mem_map_of_mem
        (fun (r : PricingRule) =>
          if r.product_id == some productId then { r with is_active := false } else r) hr
      simp only [hbe, Bool.false_eq_true, if_false] at hmm
      exact hmm

/-- C8 witness: archiving draft product 1 deactivates only its bulk rule;
the global promotion, the category rule and product 2's rule survive. -/
theorem claim_C8_witness :
    dbC8.products.find? (fun p => p.id == 1) = some prodC4 ∧
    validateTransition prodC4.lifecycle_state .archived = true ∧
    (∃ db' p', transitionState dbC8 1 .archived "admin" none = .ok (db', p') ∧
      db'.rules = [{ ruleBulk10on1 with is_active := false }, rulePromo8, ruleCat1,
        ruleBulkOn2]) := by
  obtain ⟨db', p', hok, hrules, _⟩ := claim_C8 dbC8 1 "admin" none prodC4 rfl (by decide)
  refine ⟨rfl, by decide, db', p', hok, ?_⟩
  rw [hrules]
  simp [dbC8, ruleBulk10on1, rulePromo8, ruleCat1, ruleBulkOn2]

/-- C9: `calculatePrice` on an id with no active product row fails with the
"Product not found" error, and inside `calculateBundlePrice` a failing
member aborts the whole bundle with an error (no partial result). -/
theorem claim_C9 :
    (∀ (db : DB) (productId quantity : Nat) (customerId : Option Nat),
      (∀ p ∈ db.products, p.id = productId → p.is_active = false) →
      calculatePrice db productId quantity customerId = .error "Product not found") ∧
    (∀ (db : DB) (items : List BundleItem) (item : BundleItem) (e : String),
      item ∈ items →
      calculatePrice db item.productId item.quantity item.customerId = .error e →
      ∃ e', calculateBundlePrice db items = .error e') := by
  constructor
  · intro db productId quantity customerId hinactive
    have hfind : getProductWithPricing db.products productId = none := by
      unfold getProductWithPricing
      apply List.find?_eq_none.mpr
      intro p hp
      simp only [Bool.and_eq_true, beq_iff_eq, not_and]
      intro hid
      rw [hinactive p hp hid]
      simp
    unfold calculatePrice
    rw [hfind]
  · intro db items item e hmem he
    obtain ⟨e', hl⟩ := bundleLoop_error db items item e hmem he
    exact ⟨e', by simp [calculateBundlePrice, hl]⟩

/-- C9 witness: pricing the inactive product 2 fails with "Product not
found", and a bundle containing it fails as a whole. -/
theorem claim_C9_witness :
    calculatePrice dbC9 2 1 none = .error "Product not found" ∧
    (∃ e', calculateBundlePrice dbC9 itemsC9 = .error e') := by
  have h2 : calculatePrice dbC9 2 1 none = .error "Product not found" := by
    apply claim_C9.1 dbC9 2 1 none
    intro p hp hid
    have hp' : p = { productW1 with unit_price := 50 } ∨ p = inactiveProduct := by
      simpa [dbC9] using hp
    rcases hp' with rfl | rfl
    · simp [productW1] at hid
    · rfl
  exact ⟨h2, claim_C9.2 dbC9 itemsC9 ⟨2, 1, none⟩ "Product not found" (by simp [itemsC9]) h2⟩

/-- C10: with a non-negative base price and all rule percentages in
[0, 100], the running per-unit price is non-increasing across the four
discount steps and stays in [0, basePrice]; consequently the reported
`pricePerUnit` is non-negative and at most the reported `basePrice`. -/
theorem claim_C10 (db : DB) (productId quantity : Nat) (customerId : Option Nat)
    (product : Product)
    (h : getProductWithPricing db.products productId = some product)
    (hbase : 0 ≤ product.unit_price)
    (hrules : ∀ r ∈ db.rules, 0 ≤ r.discount_percentage ∧ r.discount_percentage ≤ 100) :
    ∃ bd, calculatePrice db productId quantity customerId = .ok bd ∧
      product.unit_price
          * (1 - rulePct (getBulkDiscount db.rules db.today productId quantity) / 100)
        ≤ product.unit_price ∧
      product.unit_price
          * (1 - rulePct (getBulkDiscount db.rules db.today productId quantity) / 100)
          * (1 - rulePct (getActiveTimePromotion db.rules db.today productId) / 100)
        ≤ product.unit_price
            * (1 - rulePct (getBulkDiscount db.rules db.today productId quantity) / 100) ∧
      product.unit_price
          * (1 - rulePct (getBulkDiscount db.rules db.today productId quantity) / 100)
          * (1 - rulePct (getActiveTimePromotion db.rules db.today productId) / 100)
          * (1 - rulePct (getCategoryDiscount db.rules db.today product.category_id) / 100)
        ≤ product.unit_price
            * (1 - rulePct (getBulkDiscount db.rules db.today productId quantity) / 100)
            * (1 - rulePct (getActiveTimePromotion db.rules db.today productId) / 100) ∧
      effectivePrice db productId quantity customerId product
        ≤ product.unit_price
            * (1 - rulePct (getBulkDiscount db.rules db.today productId quantity) / 100)
            * (1 - rulePct (getActiveTimePromotion db.rules db.today productId) / 100)
            * (1 - rulePct (getCategoryDiscount db.rules db.today product.category_id) / 100) ∧
      0 ≤ effectivePrice db productId quantity customerId product ∧
      effectivePrice db productId quantity customerId product ≤ product.unit_price ∧
      0 ≤ bd.pricePerUnit ∧ bd.pricePerUnit ≤ bd.basePrice := by
  obtain ⟨bd, hok, _, _, _, _, hbp, hppu, _, _, _⟩ :=
    calculatePrice_ok db productId quantity customerId product h
  have hb : 0 ≤ rulePct (getBulkDiscount db.rules db.today productId quantity) ∧
      rulePct (getBulkDiscount db.rules db.today productId quantity) ≤ 100 := by
    cases hg : getBulkDiscount db.rules db.today productId quantity with
    | none => simp [rulePct]
    | some r =>
      have hmem := (getBulkDiscount_some _ _ _ _ _ hg).1
      simpa [rulePct] using hrules r hmem
  have hp : 0 ≤ rulePct (getActiveTimePromotion db.rules db.today productId) ∧
      rulePct (getActiveTimePromotion db.rules db.today productId) ≤ 100 := by
    cases hg : getActiveTimePromotion db.rules db.today productId with
    | none => simp [rulePct]
    | some r =>
      have hmem := (getActiveTimePromotion_some _ _ _ _ hg).1
      simpa [rulePct] using hrules r hmem
  have hcat : 0 ≤ rulePct (getCategoryDiscount db.rules db.today product.category_id) ∧
      rulePct (getCategoryDiscount db.rules db.today product.category_id) ≤ 100 := by
    cases hg : getCategoryDiscount db.rules db.today product.category_id with
    | none => simp [rulePct]
    | some r =>
      have hmem := getCategoryDiscount_some _ _ _ _ hg
      simpa [rulePct] using hrules r hmem
  have hcust := custPct_bounds customerId
  set b := rulePct (getBulkDiscount db.rules db.today productId quantity) with hbdef
  set pp := rulePct (getActiveTimePromotion db.rules db.today productId) with hpdef
  set c := rulePct (getCategoryDiscount db.rules db.today product.category_id) with hcdef
  set t := custPct customerId with htdef
  have hf1 : 0 ≤ 1 - b / 100 ∧ 1 - b / 100 ≤ 1 := by
    constructor <;> [linarith [hb.2]; linarith [hb.1]]
  have hf2 : 0 ≤ 1 - pp / 100 ∧ 1 - pp / 100 ≤ 1 := by
    constructor <;> [linarith [hp.2]; linarith [hp.1]]
  have hf3 : 0 ≤ 1 - c / 100 ∧ 1 - c / 100 ≤ 1 := by
    constructor <;> [linarith [hcat.2]; linarith [hcat.1]]
  have hf4 : 0 ≤ 1 - t / 100 ∧ 1 - t / 100 ≤ 1 := by
    constructor <;> [linarith [hcust.2]; linarith [hcust.1]]
  have hp1nn : 0 ≤ product.unit_price * (1 - b / 100) := mul_nonneg hbase hf1.1
  have hp1le : product.unit_price * (1 - b / 100) ≤ product.unit_price :=
    mul_le_of_le_one_right hbase hf1.2
  have hp2nn : 0 ≤ product.unit_price * (1 - b / 100) * (1 - pp / 100) :=
    mul_nonneg hp1nn hf2.1
  have hp2le : product.unit_price * (1 - b / 100) * (1 - pp / 100)
      ≤ product.unit_price * (1 - b / 100) := mul_le_of_le_one_right hp1nn hf2.2
  have hp3nn : 0 ≤ product.unit_price * (1 - b / 100) * (1 - pp / 100) * (1 - c / 100) :=
    mul_nonneg hp2nn hf3.1
  have hp3le : product.unit_price * (1 - b / 100) * (1 - pp / 100) * (1 - c / 100)
      ≤ product.unit_price * (1 - b / 100) * (1 - pp / 100) :=
    mul_le_of_le_one_right hp2nn hf3.2
  have hp4le : effectivePrice db productId quantity customerId product
      ≤ product.unit_price * (1 - b / 100) * (1 - pp / 100) * (1 - c / 100) := by
    rw [effectivePrice]
    exact mul_le_of_le_one_right hp3nn hf4.2
  have hp4nn : 0 ≤ effectivePrice db productId quantity customerId product := by
    rw [effectivePrice]
    exact mul_nonneg hp3nn hf4.1
  have hp4top : effectivePrice db productId quantity customerId product
      ≤ product.unit_price :=
    le_trans hp4le (le_trans hp3le (le_trans hp2le hp1le))
  refine ⟨bd, hok, hp1le, hp2le, hp3le, hp4le, hp4nn, hp4top, ?_, ?_⟩
  · rw [hppu]
    exact round2_nonneg _ hp4nn
  · rw [hppu, hbp]
    exact round2_mono _ _ hp4top

/-- C10 witness: for base price 100 with the 10% bulk and 5% promotion
rules the reported per-unit price lies in [0, basePrice]. -/
theorem claim_C10_witness :
    getProductWithPricing dbC1.products 1 = some productW1 ∧
    0 ≤ productW1.unit_price ∧
    (∃ bd, calculatePrice dbC1 1 1 none = .ok bd ∧
      0 ≤ bd.pricePerUnit ∧ bd.pricePerUnit ≤ bd.basePrice) := by
  have hr : ∀ r ∈ dbC1.rules, 0 ≤ r.discount_percentage ∧ r.discount_percentage ≤ 100 := by
    intro r hrl
    have hr' : r = ruleBulk10on1 ∨ r = rulePromo5on1 := by simpa [dbC1] using hrl
    rcases hr' with rfl | rfl <;> norm_num [ruleBulk10on1, rulePromo5on1]
  obtain ⟨bd, hok, _, _, _, _, _, _, hnn, hle⟩ :=
    claim_C10 dbC1 1 1 none productW1 rfl (by norm_num [productW1]) hr
  exact ⟨rfl, by norm_num [productW1], bd, hok, hnn, hle⟩
